import Mathlib

/-!
Shallow embedding of the authentication core of the fastapi-blueprint
repository, together with theorems settling the specification claims.

The embedded source files are:
  src/auth/schemas.py        (TokenPayload and its roles validator)
  src/auth/jwt.py            (create_access_token, create_refresh_token, decode_token,
                              assert_token_type; the jose jwt.encode/jwt.decode calls)
  src/auth/password.py       (validate_password, get_password_hash, verify_password)
  src/auth/token_blacklist.py (is_token_blacklisted, blacklist_token)
  src/auth/dependencies.py   (get_current_user)
  src/services/auth_service.py (AuthService methods)
  src/adapters/role_repository.py (SqlAlchemyRoleRepository.get_or_create)

Modelling conventions:
  * Time is an explicit `now : Int` (unix seconds); every Python call to
    `datetime.now(UTC)` inside one request is modelled by the same `now`.
  * Python exceptions become `Except` values; an uncaught exception is an
    `.error` that propagates through `match`es exactly as `raise` does.
  * The external bcrypt primitive and its salt are parameters: `checkpw`
    may return a boolean or raise (bcrypt's API raises only ValueError or
    TypeError), `hashpw` is an arbitrary deterministic function of the
    password and the configured rounds (one fixed salt draw).
  * A JWT on the wire is either a payload signed with some key or a
    malformed string; jose's `jwt.decode` with default options verifies
    the signature and then the `exp` claim (ExpiredSignatureError when
    `exp < now`, leeway 0), exactly as python-jose does.
  * The SQL store is a list of records; `flush()` outcomes (success,
    IntegrityError from a concurrent uniqueness violation, other
    SQLAlchemyError) are injected through a `FlushSignal` parameter, and
    the post-conflict database contents through a second list.
-/

deriving instance DecidableEq for Except

namespace FastapiBlueprint

/-- Python exception classes relevant to the embedded code.
`unicodeEncodeError` is a subclass of ValueError in Python. -/
inductive PyExc
  | valueError
  | typeError
  | unicodeEncodeError
  | otherExc (name : String)
deriving DecidableEq, Repr

/-- Whether `except (ValueError, TypeError)` — the clause in
`verify_password` — catches the given exception. -/
def pyCaught : PyExc → Bool
  | .valueError => true
  | .typeError => true
  | .unicodeEncodeError => true
  | .otherExc _ => false

/-- TokenType = Literal["access", "refresh"]  (src/auth/schemas.py). -/
inductive TokenType
  | access
  | refresh
deriving DecidableEq, Repr

/-- Strings are ordered by Python exactly as lists of unicode code points;
`strKey` is that code-point list.  Lean's own `String.le` is defined via
iterators and does not reduce in the kernel, so the embedding compares
keys instead. -/
def strKey (s : String) : List Nat := s.data.map Char.toNat

/-- The order `sorted` uses on role names (Python string comparison). -/
def roleLe (a b : String) : Prop := strKey a ≤ strKey b

instance : DecidableRel roleLe := fun a b => inferInstanceAs (Decidable (strKey a ≤ strKey b))

instance : IsTotal String roleLe := ⟨fun a b => le_total (strKey a) (strKey b)⟩

instance : IsTrans String roleLe := ⟨fun _ _ _ h h₂ => le_trans h h₂⟩

/-- TokenPayload.normalize_roles (src/auth/schemas.py:21-24):
`sorted({r for r in v if r})` — drop falsy (empty) names, deduplicate,
sort.  `List.dedup` keeps a different representative than Python's `set`,
but after sorting the result is the same list. -/
def normalize_roles (v : List String) : List String :=
  ((v.filter (fun r => r ≠ "")).dedup).insertionSort roleLe

/-- The validated JWT payload (src/auth/schemas.py, class TokenPayload).
`exp`/`iat` are unix seconds. -/
structure TokenPayload where
  sub : String
  type : TokenType
  exp : Int
  iat : Int
  email : Option String := none
  roles : List String := []
  jti : Option String := none
deriving DecidableEq, Repr

/-- Constructing a pydantic TokenPayload runs the `normalize_roles` field
validator; so does `TokenPayload.model_validate`. -/
def TokenPayload.validated (p : TokenPayload) : TokenPayload :=
  { p with roles := normalize_roles p.roles }

/-- TokenPayload.is_expired: `now_ts >= self.exp`. -/
def TokenPayload.is_expired (p : TokenPayload) (now : Int) : Bool :=
  now ≥ p.exp

/-- TokenPayload.expires_at, kept in unix seconds. -/
def TokenPayload.expires_at_ts (p : TokenPayload) : Int :=
  p.exp

/-- The configuration fields the auth core reads
(src/core/settings/auth.py and CACHE_ENABLED from the cache settings).
Pydantic enforces JWT_ACCESS_TOKEN_EXPIRE_MINUTES ≥ 1 and
JWT_REFRESH_TOKEN_EXPIRE_DAYS ≥ 1; theorems take those bounds as
hypotheses where they matter. -/
structure Settings where
  JWT_SECRET_KEY : String
  JWT_ACCESS_TOKEN_EXPIRE_MINUTES : Int
  JWT_REFRESH_TOKEN_EXPIRE_DAYS : Int
  PASSWORD_MIN_LENGTH : Nat
  BCRYPT_ROUNDS : Nat
  DEFAULT_USER_ROLE : String
  CACHE_ENABLED : Bool
deriving Repr

/-- A JWT string on the wire: either a payload signed with a secret, or a
string that is not a well-formed signed token at all. -/
inductive Jwt
  | signed (key : String) (claims : TokenPayload)
  | malformed (raw : String)
deriving DecidableEq, Repr

/-- Errors raised out of the jose library calls used by src/auth/jwt.py.
All four are (subclasses of) jose.JWTError. -/
inductive JoseError
  | malformedToken
  | signatureInvalid
  | expiredSignature
  | invalidTypeClaim (expected got : TokenType)
deriving DecidableEq, Repr

/-- jose `jwt.decode(token, key, algorithms=[...])`: verify the signature,
then (with default options, `verify_exp=True`) raise ExpiredSignatureError
when `exp < now` (leeway 0).  The `verifyExp` flag models the
`options={"verify_exp": ...}` switch of the library. -/
def jose_decode (key : String) (now : Int) (verifyExp : Bool) : Jwt → Except JoseError TokenPayload
  | .malformed _ => .error .malformedToken
  | .signed k p =>
    if k ≠ key then .error .signatureInvalid
    else if verifyExp ∧ p.exp < now then .error .expiredSignature
    else .ok p

/-- create_access_token (src/auth/jwt.py:13-24): kind access,
iat = now, exp = now + minutes·60, `roles or []` put through the pydantic
validator, no jti. -/
def create_access_token (st : Settings) (now : Int) (sub : String)
    (email : Option String) (roles : Option (List String)) : Jwt :=
  .signed st.JWT_SECRET_KEY (TokenPayload.validated
    { sub := sub
      type := .access
      exp := now + st.JWT_ACCESS_TOKEN_EXPIRE_MINUTES * 60
      iat := now
      email := email
      roles := roles.getD []
      jti := none })

/-- create_refresh_token (src/auth/jwt.py:27-36): kind refresh,
exp = now + days·86400, no email, no roles, and — as written — no jti. -/
def create_refresh_token (st : Settings) (now : Int) (sub : String) : Jwt :=
  .signed st.JWT_SECRET_KEY (TokenPayload.validated
    { sub := sub
      type := .refresh
      exp := now + st.JWT_REFRESH_TOKEN_EXPIRE_DAYS * 86400
      iat := now })

/-- decode_token (src/auth/jwt.py:39-41).  The source takes only the token
string: it calls jose with default options, so expiry is always verified;
there is no `verify_exp` parameter. -/
def decode_token (st : Settings) (now : Int) (tok : Jwt) : Except JoseError TokenPayload :=
  (jose_decode st.JWT_SECRET_KEY now true tok).map TokenPayload.validated

/-- assert_token_type (src/auth/jwt.py:44-46): raises
`JWTError("Invalid token type: expected=..., got=...")` on mismatch. -/
def assert_token_type (p : TokenPayload) (expected : TokenType) : Except JoseError Unit :=
  if p.type ≠ expected then .error (.invalidTypeClaim expected p.type) else .ok ()

/-- decode followed by a kind assertion, as both verification paths
(auth_service.refresh_access_token, dependencies.get_current_user) do. -/
def decode_and_assert (st : Settings) (now : Int) (expected : TokenType) (tok : Jwt) :
    Except JoseError TokenPayload :=
  (decode_token st now tok).bind fun p =>
    (assert_token_type p expected).map fun _ => p

/-- get_current_user classifies a caught JWTError by
`"expired" in str(e).lower() or "exp" in str(e).lower()`.  The messages
are fixed by jose and by assert_token_type:
  * malformed token   → e.g. "Not enough segments"            → false
  * bad signature     → "Signature verification failed."      → false
  * expired signature → "Signature has expired."              → true
  * wrong kind        → "Invalid token type: expected=…, got=…" — the
    substring "exp" occurs inside "expected", so this also tests true. -/
def joseErrorMentionsExp : JoseError → Bool
  | .malformedToken => false
  | .signatureInvalid => false
  | .expiredSignature => true
  | .invalidTypeClaim _ _ => true

/-- The revocation store: live Redis keys, as (key, absolute expiry) pairs.
`setex key ttl` at time `t` keeps the key alive while `now < t + ttl`. -/
abbrev Cache := List (String × Int)

/-- `token_blacklist:` key prefix (src/auth/token_blacklist.py). -/
def blacklistKey (jti : String) : String :=
  "token_blacklist:" ++ jti

/-- is_token_blacklisted (src/auth/token_blacklist.py:12-22): False when
the cache is disabled (fail-open), else a Redis `exists` on the prefixed
key. -/
def is_token_blacklisted (st : Settings) (cache : Cache) (now : Int) (jti : String) : Bool :=
  if ¬ st.CACHE_ENABLED then false
  else (List.any cache fun e => e.1 == blacklistKey jti ∧ now < e.2 : Bool)

/-- blacklist_token (src/auth/token_blacklist.py:25-37): no-op when the
cache is disabled; otherwise `setex` with ttl = expires_at − now, skipped
when the ttl is not positive. -/
def blacklist_token (st : Settings) (cache : Cache) (now : Int) (jti : String)
    (expiresAt : Int) : Cache :=
  if ¬ st.CACHE_ENABLED then cache
  else
    let ttl := expiresAt - now
    if ttl > 0 then (blacklistKey jti, now + ttl) :: cache else cache

/-- Python truthiness of the optional jti claim: `if payload.jti:` is
False for None and for the empty string. -/
def jtiTruthy : Option String → Bool
  | none => false
  | some s => s ≠ ""

/-- The jti value read in the truthy branch. -/
def jtiVal (o : Option String) : String :=
  o.getD ""

/-- validate_password (src/auth/password.py:6-10): ValueError when the
password is shorter than PASSWORD_MIN_LENGTH characters or longer than 72
bytes in UTF-8. -/
def utf8Len (s : String) : Nat :=
  (s.data.map Char.utf8Size).sum

/-- get_password_hash (src/auth/password.py:13-16): validate, then one
bcrypt `hashpw` with a fresh salt at BCRYPT_ROUNDS; `hashpw` is the
external primitive for one salt draw. -/
def get_password_hash (st : Settings) (hashpw : String → Nat → String)
    (password : String) : Except PyExc String :=
  if password.length < st.PASSWORD_MIN_LENGTH then .error .valueError
  else if utf8Len password > 72 then .error .valueError
  else .ok (hashpw password st.BCRYPT_ROUNDS)

/-- verify_password (src/auth/password.py:19-23): delegate to
`bcrypt.checkpw`, turning a raised ValueError or TypeError (malformed or
truncated hash, bad input encoding) into False. -/
def verify_password (checkpw : String → String → Except PyExc Bool)
    (plain hashed : String) : Except PyExc Bool :=
  match checkpw plain hashed with
  | .ok b => .ok b
  | .error e => if pyCaught e then .ok false else .error e

/-- Role record (src/models/role.py): unique name, optional description. -/
structure RoleRec where
  name : String
  description : Option String := none
deriving DecidableEq, Repr

/-- User record (src/models/user.py), with role membership inlined. -/
structure UserRec where
  id : Int
  email : String
  username : Option String := none
  hashedPassword : String
  isActive : Bool := true
  isSuperuser : Bool := false
  lastLogin : Option Int := none
  roles : List RoleRec := []
deriving DecidableEq, Repr

/-- SqlAlchemyUserRepository.get_by_email: first user with that email. -/
def get_by_email (db : List UserRec) (email : String) : Option UserRec :=
  db.find? fun u => u.email == email

/-- SqlAlchemyRepository.get_by_id. -/
def get_by_id (db : List UserRec) (i : Int) : Option UserRec :=
  db.find? fun u => u.id == i

/-- SqlAlchemyRoleRepository.get_by_name. -/
def get_by_name (db : List RoleRec) (name : String) : Option RoleRec :=
  db.find? fun r => r.name == name

/-- Outcome of a session `flush()`: success, an IntegrityError signalling
a storage-level uniqueness violation (a concurrent insert won the race),
or another SQLAlchemyError. -/
inductive FlushSignal
  | ok
  | integrityError
  | otherSqlError
deriving DecidableEq, Repr

/-- The typed domain and infrastructure errors the service layer raises
(src/auth/exceptions.py, src/core/exceptions/exceptions.py), plus a
constructor for an uncaught Python-level exception. -/
inductive AuthErr
  | invalidCredentials (msg : Option String)
  | invalidToken (msg : Option String)
  | tokenExpired
  | userAlreadyExists
  | serviceUnavailable (msg : String)
  | integrityError
  | sqlAlchemyError
  | pyError (e : PyExc)
deriving DecidableEq, Repr

/-- Python `int(s)` for a str argument: optional sign, then a nonempty
digit run (surrounding whitespace, underscores and other notations are
immaterial to the claims). Raises ValueError — here `none` — otherwise. -/
def parseDigitsAux : List Char → Nat → Option Nat
  | [], acc => some acc
  | c :: cs, acc =>
    if c.isDigit then parseDigitsAux cs (acc * 10 + (c.toNat - 48)) else none

/-- Integer parse of a nonempty digit list. -/
def parseDigits : List Char → Option Nat
  | [] => none
  | cs => parseDigitsAux cs 0

/-- Python `int(...)` applied to the `sub` claim. -/
def pyInt (s : String) : Option Int :=
  match s.data with
  | '-' :: cs => (parseDigits cs).map fun n => -(n : Int)
  | '+' :: cs => (parseDigits cs).map fun n => (n : Int)
  | cs => (parseDigits cs).map fun n => (n : Int)

/-- AuthService.authenticate_user (src/services/auth_service.py:33-42):
None when the user is absent or inactive; None on a password mismatch;
otherwise the user with last_login set to now.  An exception escaping
verify_password would propagate. -/
def authenticate_user (checkpw : String → String → Except PyExc Bool)
    (db : List UserRec) (now : Int) (email password : String) :
    Except PyExc (Option UserRec) :=
  match get_by_email db email with
  | none => .ok none
  | some user =>
    if ¬ user.isActive then .ok none
    else
      match verify_password checkpw password user.hashedPassword with
      | .error e => .error e
      | .ok false => .ok none
      | .ok true => .ok (some { user with lastLogin := some now })

/-- SqlAlchemyRoleRepository.get_or_create
(src/adapters/role_repository.py:14-32): return the role if present;
otherwise add and flush inside a nested transaction.  On IntegrityError
re-fetch (`dbAfterConflict` is the store as the concurrent winner left
it) and return the existing role, raising ServiceUnavailableError only
when the role still cannot be found; any other SQLAlchemyError is also a
ServiceUnavailableError. -/
def get_or_create (db dbAfterConflict : List RoleRec) (flushSig : FlushSignal)
    (name : String) (description : Option String) : Except AuthErr RoleRec :=
  match get_by_name db name with
  | some existing => .ok existing
  | none =>
    match flushSig with
    | .ok => .ok { name := name, description := description }
    | .integrityError =>
      match get_by_name dbAfterConflict name with
      | some existing => .ok existing
      | none => .error (.serviceUnavailable "Role creation failed")
    | .otherSqlError => .error (.serviceUnavailable "Database error during role creation")

/-- The description AuthService attaches to the default role. -/
def DEFAULT_ROLE_DESCRIPTION : String :=
  "Default role assigned to newly registered users."

/-- AuthService.create_user (src/services/auth_service.py:44-65):
pre-check the email, hash the password, get-or-create the default role,
add the user and call the repository's plain `flush()` — whose
IntegrityError, unlike `safe_flush`, propagates as raised. -/
def create_user (st : Settings) (hashpw : String → Nat → String)
    (db : List UserRec) (rolesDb rolesDbAfterConflict : List RoleRec)
    (roleFlush userFlush : FlushSignal) (newId : Int)
    (email password : String) (username : Option String) :
    Except AuthErr UserRec :=
  match get_by_email db email with
  | some _ => .error .userAlreadyExists
  | none =>
    match get_password_hash st hashpw password with
    | .error e => .error (.pyError e)
    | .ok hp =>
      match get_or_create rolesDb rolesDbAfterConflict roleFlush
          st.DEFAULT_USER_ROLE (some DEFAULT_ROLE_DESCRIPTION) with
      | .error e => .error e
      | .ok defaultRole =>
        match userFlush with
        | .ok => .ok
            { id := newId
              email := email
              username := username
              hashedPassword := hp
              isActive := true
              isSuperuser := false
              lastLogin := none
              roles := [defaultRole] }
        | .integrityError => .error .integrityError
        | .otherSqlError => .error .sqlAlchemyError

/-- AuthService.login_user (src/services/auth_service.py:73-81):
authenticate, InvalidCredentialsError on None, else issue the pair with
the live role names. -/
def login_user (st : Settings) (checkpw : String → String → Except PyExc Bool)
    (db : List UserRec) (now : Int) (email password : String) :
    Except AuthErr (Jwt × Jwt × UserRec) :=
  match authenticate_user checkpw db now email password with
  | .error e => .error (.pyError e)
  | .ok none => .error (.invalidCredentials none)
  | .ok (some user) =>
    let role_names := user.roles.map (·.name)
    .ok (create_access_token st now (toString user.id) (some user.email) (some role_names),
         create_refresh_token st now (toString user.id),
         user)

/-- AuthService.refresh_access_token (src/services/auth_service.py:83-117).
Any exception out of decode/assert — including jose's
ExpiredSignatureError, raised because decode_token verifies expiry — is
re-raised as a bare InvalidTokenError; the dedicated TokenExpiredError
check runs only on payloads decode let through.  Returns the new pair and
the revocation store as left behind. -/
def refresh_access_token (st : Settings) (db : List UserRec) (cache : Cache)
    (now : Int) (tok : Jwt) : Except AuthErr (Jwt × Jwt × Cache) :=
  match decode_and_assert st now .refresh tok with
  | .error _ => .error (.invalidToken none)
  | .ok payload =>
    if payload.is_expired now then .error .tokenExpired
    else if jtiTruthy payload.jti ∧ is_token_blacklisted st cache now (jtiVal payload.jti) then
      .error (.invalidToken (some "Token has been revoked"))
    else
      match pyInt payload.sub with
      | none => .error (.invalidToken none)
      | some user_id =>
        match get_by_id db user_id with
        | none => .error (.invalidToken none)
        | some user =>
          if ¬ user.isActive then .error (.invalidToken none)
          else
            let cache2 :=
              if jtiTruthy payload.jti then
                blacklist_token st cache now (jtiVal payload.jti) payload.expires_at_ts
              else cache
            let role_names := user.roles.map (·.name)
            .ok (create_access_token st now (toString user_id) (some user.email) (some role_names),
                 create_refresh_token st now (toString user_id),
                 cache2)

/-- AuthService.change_user_password (src/services/auth_service.py:119-125):
InvalidCredentialsError("Invalid current password") unless the current
password verifies, else replace the hash with a fresh one. -/
def change_user_password (st : Settings)
    (checkpw : String → String → Except PyExc Bool)
    (hashpw : String → Nat → String)
    (user : UserRec) (current new : String) : Except AuthErr UserRec :=
  match verify_password checkpw current user.hashedPassword with
  | .error e => .error (.pyError e)
  | .ok false => .error (.invalidCredentials (some "Invalid current password"))
  | .ok true =>
    match get_password_hash st hashpw new with
    | .error e => .error (.pyError e)
    | .ok hp => .ok { user with hashedPassword := hp }

/-- The user record as it stands after a change_user_password request:
Python mutates `user.hashed_password` only on the success path, so on any
raise the stored record is untouched. -/
def user_after_change (st : Settings)
    (checkpw : String → String → Except PyExc Bool)
    (hashpw : String → Nat → String)
    (user : UserRec) (current new : String) : UserRec :=
  match change_user_password st checkpw hashpw user current new with
  | .ok u => u
  | .error _ => user

/-- An HTTP-boundary error as get_current_user raises it:
HTTPException(status_code, detail). -/
structure HttpErr where
  status : Nat
  detail : String
deriving DecidableEq, Repr

/-- get_current_user (src/auth/dependencies.py:31-65): the access-control
guard.  `none` models a missing bearer token.  A caught JWTError is
classified by its message (see joseErrorMentionsExp); then revocation,
subject parse, user lookup (401 on missing) and the active check (403). -/
def get_current_user (st : Settings) (db : List UserRec) (cache : Cache)
    (now : Int) (token : Option Jwt) : Except HttpErr UserRec :=
  match token with
  | none => .error ⟨401, "Not authenticated"⟩
  | some tok =>
    match decode_and_assert st now .access tok with
    | .error e =>
      if joseErrorMentionsExp e then .error ⟨401, "Token expired"⟩
      else .error ⟨401, "Invalid authentication credentials"⟩
    | .ok payload =>
      if jtiTruthy payload.jti ∧ is_token_blacklisted st cache now (jtiVal payload.jti) then
        .error ⟨401, "Token has been revoked"⟩
      else
        match pyInt payload.sub with
        | none => .error ⟨401, "Invalid token payload"⟩
        | some user_id =>
          match get_by_id db user_id with
          | none => .error ⟨401, "User not found"⟩
          | some user =>
            if ¬ user.isActive then .error ⟨403, "User is inactive"⟩
            else .ok user

/-! Helper lemmas (shared across claims). -/

theorem get_by_name_name (db : List RoleRec) (n : String) (r : RoleRec)
    (h : get_by_name db n = some r) : r.name = n := by
  have hp := List.find?_some h
  exact eq_of_beq hp

theorem normalize_roles_sorted (v : List String) : (normalize_roles v).Sorted roleLe :=
  List.sorted_insertionSort roleLe _

theorem normalize_roles_nodup (v : List String) : (normalize_roles v).Nodup := by
  have h := List.perm_insertionSort roleLe ((v.filter fun r => r ≠ "").dedup)
  exact h.nodup_iff.mpr (List.nodup_dedup _)

theorem mem_normalize_roles (v : List String) (r : String) :
    r ∈ normalize_roles v ↔ (r ∈ v ∧ r ≠ "") := by
  unfold normalize_roles
  rw [(List.perm_insertionSort _ _).mem_iff, List.mem_dedup, List.mem_filter]
  simp

/-! Concrete fixtures used by the closed theorems and witnesses. -/

/-- A configuration with the shipped defaults and the cache enabled. -/
def demoSettings : Settings :=
  { JWT_SECRET_KEY := "secret"
    JWT_ACCESS_TOKEN_EXPIRE_MINUTES := 30
    JWT_REFRESH_TOKEN_EXPIRE_DAYS := 7
    PASSWORD_MIN_LENGTH := 8
    BCRYPT_ROUNDS := 12
    DEFAULT_USER_ROLE := "user"
    CACHE_ENABLED := true }

/-- A registered, active user holding the default role. -/
def demoUser : UserRec :=
  { id := 1
    email := "a@x.com"
    hashedPassword := "HOldPass123!"
    roles := [⟨"user", none⟩] }

/-- A deterministic stand-in for one bcrypt hashpw salt draw. -/
def toyHashpw (password : String) (_rounds : Nat) : String :=
  "H" ++ password

/-- A bcrypt stand-in whose checkpw succeeds exactly on the matching
password (it never raises). -/
def toyCheckpw (password hash : String) : Except PyExc Bool :=
  .ok (toyHashpw password 12 == hash)

/-- C1: the spec demands one-time-use refresh rotation — the second
presentation of a used refresh token must fail with InvalidToken.  The
code violates this: create_refresh_token mints no jti, so the rotation
path in refresh_access_token (which blacklists only `if payload.jti`)
revokes nothing; a refresh token accepted once is accepted again.  Here a
first call at time 1000 succeeds and leaves the revocation store empty,
and a second call presenting the same token at time 2000 succeeds too. -/
theorem c1_refresh_token_reuse_accepted :
    refresh_access_token demoSettings [demoUser] [] 1000 (create_refresh_token demoSettings 0 "1") =
      .ok (create_access_token demoSettings 1000 "1" (some "a@x.com") (some ["user"]),
           create_refresh_token demoSettings 1000 "1", ([] : Cache)) ∧
    refresh_access_token demoSettings [demoUser] [] 2000 (create_refresh_token demoSettings 0 "1") =
      .ok (create_access_token demoSettings 2000 "1" (some "a@x.com") (some ["user"]),
           create_refresh_token demoSettings 2000 "1", ([] : Cache)) := by
  decide

/-- C2: the spec says a well-signed, kind=refresh token whose exp is in
the past fails refreshAccessToken with TokenExpiredError.  The code
violates this: decode_token verifies expiry (jose default), so the
ExpiredSignatureError lands in the blanket `except` and is re-raised as a
bare InvalidTokenError; the dedicated TokenExpiredError branch is
reachable only in the single boundary second now = exp (jose rejects when
exp < now, is_expired fires when now ≥ exp). -/
theorem c2_expired_refresh_raises_invalid_token :
    refresh_access_token demoSettings [demoUser] [] 1000
        (.signed "secret" { sub := "1", type := .refresh, exp := 500, iat := 0 }) =
      .error (.invalidToken none) ∧
    AuthErr.invalidToken none ≠ AuthErr.tokenExpired ∧
    refresh_access_token demoSettings [demoUser] [] 500
        (.signed "secret" { sub := "1", type := .refresh, exp := 500, iat := 0 }) =
      .error .tokenExpired := by
  decide

/-- C3: the spec requires a uniqueness violation raised by the flush to
be converted to UserAlreadyExistsError.  The code violates this:
create_user calls the repository's plain `flush()` rather than
`safe_flush` (which performs exactly that conversion and is never
called), so the IntegrityError from a lost insert race propagates as an
infrastructure failure.  The pre-check half of the claim does hold: an
email already present yields UserAlreadyExistsError. -/
theorem c3_flush_race_not_converted :
    create_user demoSettings toyHashpw [] [] [] .ok .integrityError 1
        "a@x.com" "Password123!" none = .error .integrityError ∧
    AuthErr.integrityError ≠ AuthErr.userAlreadyExists ∧
    create_user demoSettings toyHashpw [demoUser] [] [] .ok .ok 2
        "a@x.com" "Password123!" none = .error .userAlreadyExists := by
  decide

/-- The expired token of tests/test_auth/test_jwt.py::test_decode_expired_token,
at now = 10000 (iat = now − 7200, exp = now − 3600). -/
def c4ExpiredToken : Jwt :=
  .signed "secret" { sub := "123", type := .access, exp := 6400, iat := 2800 }

/-- C4: the spec (and the repository's own test and logout route, which
both call `decode_token(token, verify_exp=False)`) require decode_token
to take a verifyExpiry flag.  The source function takes only the token:
the call with the keyword raises TypeError, and the only decode the
source can perform verifies expiry and fails on this token.  The second
and third conjuncts show the behaviour the claim asks for lives in the
jose primitive's option that the source never exposes: with the flag off
the same token decodes and its claims report is_expired. -/
theorem c4_decode_token_lacks_verify_exp :
    decode_token demoSettings 10000 c4ExpiredToken = .error .expiredSignature ∧
    jose_decode "secret" 10000 false c4ExpiredToken =
      .ok { sub := "123", type := .access, exp := 6400, iat := 2800 } ∧
    TokenPayload.is_expired { sub := "123", type := .access, exp := 6400, iat := 2800 } 10000 = true := by
  decide

/-- Modelled from the spec: the round-trip claim compares the decoded
roles with "the sorted deduplicated set of the input roles" — sorting and
deduplication only, no further filtering. -/
def specSortedDedup (v : List String) : List String :=
  (v.dedup).insertionSort roleLe

/-- C5 counterexample: the claim fails on role lists containing the empty
string.  The normalizer `sorted({r for r in v if r})` drops falsy names,
so issueAccess with roles = [""] decodes to roles = [], while the sorted
deduplicated set of the input is [""]. -/
theorem c5_empty_role_dropped :
    decode_token demoSettings 1000 (create_access_token demoSettings 1000 "42" none (some [""])) =
      .ok { sub := "42", type := .access, exp := 2800, iat := 1000, email := none,
            roles := [], jti := none } ∧
    specSortedDedup [""] = [""] ∧
    ([] : List String) ≠ [""] := by
  decide

/-- C5 (amended): for every subject, optional email and role list, the
issueAccess → decode round-trip succeeds (the configured TTLs are ≥ 1 by
the settings validators) and yields kind=access with the same subject and
with roles the sorted deduplicated list of the NON-EMPTY input roles —
order and duplicates of the input are irrelevant; issueRefresh → decode
yields kind=refresh with the same subject. -/
theorem c5_issue_decode_roundtrip (st : Settings) (now : Int) (sub : String)
    (email : Option String) (roles : List String)
    (hacc : 1 ≤ st.JWT_ACCESS_TOKEN_EXPIRE_MINUTES)
    (href : 1 ≤ st.JWT_REFRESH_TOKEN_EXPIRE_DAYS) :
    ∃ p q,
      decode_token st now (create_access_token st now sub email (some roles)) = .ok p ∧
      p.sub = sub ∧ p.type = .access ∧
      p.roles.Sorted roleLe ∧ p.roles.Nodup ∧
      (∀ r, r ∈ p.roles ↔ (r ∈ roles ∧ r ≠ "")) ∧
      decode_token st now (create_refresh_token st now sub) = .ok q ∧
      q.sub = sub ∧ q.type = .refresh := by
  have hne : ¬ (st.JWT_SECRET_KEY ≠ st.JWT_SECRET_KEY) := fun h => h rfl
  have haccExp : ¬ (now + st.JWT_ACCESS_TOKEN_EXPIRE_MINUTES * 60 < now) := by
    have h60 : (60 : Int) ≤ st.JWT_ACCESS_TOKEN_EXPIRE_MINUTES * 60 := by
      have := mul_le_mul_of_nonneg_right hacc (by norm_num : (0 : Int) ≤ 60)
      simpa using this
    omega
  have hrefExp : ¬ (now + st.JWT_REFRESH_TOKEN_EXPIRE_DAYS * 86400 < now) := by
    have h86400 : (86400 : Int) ≤ st.JWT_REFRESH_TOKEN_EXPIRE_DAYS * 86400 := by
      have := mul_le_mul_of_nonneg_right href (by norm_num : (0 : Int) ≤ 86400)
      simpa using this
    omega
  refine ⟨TokenPayload.validated (TokenPayload.validated
      { sub := sub, type := .access, exp := now + st.JWT_ACCESS_TOKEN_EXPIRE_MINUTES * 60,
        iat := now, email := email, roles := roles, jti := none }),
    TokenPayload.validated (TokenPayload.validated
      { sub := sub, type := .refresh, exp := now + st.JWT_REFRESH_TOKEN_EXPIRE_DAYS * 86400,
        iat := now }),
    ?_, rfl, rfl, ?_, ?_, ?_, ?_, rfl, rfl⟩
  · simp [decode_token, jose_decode, create_access_token, TokenPayload.validated, Except.map, hne, haccExp]
  · exact normalize_roles_sorted _
  · exact normalize_roles_nodup _
  · intro r
    show r ∈ normalize_roles (normalize_roles roles) ↔ _
    rw [mem_normalize_roles, mem_normalize_roles]
    tauto
  · simp [decode_token, jose_decode, create_refresh_token, TokenPayload.validated, Except.map, hne, hrefExp]

/-- C5 witness: the round-trip theorem applied at the concrete inputs of
the spec example. -/
theorem c5_issue_decode_roundtrip_witness :
    ∃ p q,
      decode_token demoSettings 1000
          (create_access_token demoSettings 1000 "123" (some "a@b.com")
            (some ["admin", "user", "admin"])) = .ok p ∧
      p.sub = "123" ∧ p.type = .access ∧
      p.roles.Sorted roleLe ∧ p.roles.Nodup ∧
      (∀ r, r ∈ p.roles ↔ (r ∈ ["admin", "user", "admin"] ∧ r ≠ "")) ∧
      decode_token demoSettings 1000 (create_refresh_token demoSettings 1000 "123") = .ok q ∧
      q.sub = "123" ∧ q.type = .refresh :=
  c5_issue_decode_roundtrip demoSettings 1000 "123" (some "a@b.com")
    ["admin", "user", "admin"] (by decide) (by decide)

/-- C6: authenticate_user returns None — and login_user therefore raises
one and the same bare InvalidCredentialsError — in all three failure
cases: no user with the email, user present but inactive, and password
mismatch.  A caller cannot tell the cases apart from the outcome. -/
theorem c6_login_failures_indistinguishable (st : Settings)
    (checkpw : String → String → Except PyExc Bool)
    (db : List UserRec) (now : Int) (email password : String)
    (h : get_by_email db email = none ∨
         (∃ u, get_by_email db email = some u ∧ u.isActive = false) ∨
         (∃ u, get_by_email db email = some u ∧ u.isActive = true ∧
               checkpw password u.hashedPassword = .ok false)) :
    authenticate_user checkpw db now email password = .ok none ∧
    login_user st checkpw db now email password = .error (.invalidCredentials none) := by
  have hauth : authenticate_user checkpw db now email password = .ok none := by
    rcases h with h | ⟨u, hu, hin⟩ | ⟨u, hu, hact, hpw⟩
    · simp [authenticate_user, h]
    · simp [authenticate_user, hu, hin]
    · simp [authenticate_user, hu, hact, verify_password, hpw]
  refine ⟨hauth, ?_⟩
  simp [login_user, hauth]

/-- C6 witness: the inactive-user case at concrete inputs. -/
theorem c6_login_failures_indistinguishable_witness :
    authenticate_user toyCheckpw [{ demoUser with isActive := false }] 1000
        "a@x.com" "OldPass123!" = .ok none ∧
    login_user demoSettings toyCheckpw [{ demoUser with isActive := false }] 1000
        "a@x.com" "OldPass123!" = .error (.invalidCredentials none) :=
  c6_login_failures_indistinguishable demoSettings toyCheckpw
    [{ demoUser with isActive := false }] 1000 "a@x.com" "OldPass123!"
    (Or.inr (Or.inl ⟨{ demoUser with isActive := false }, by decide, rfl⟩))

/-- C7: change_user_password is atomic with respect to the stored hash.
If the current password fails to verify, it raises
InvalidCredentialsError and the record is unchanged.  If it verifies (and
the new password passes validation so hashing succeeds), the hash is
replaced by a fresh hash of the new password; assuming the bcrypt
contract — checkpw accepts the new password against the new hash and
rejects the old password against it — a subsequent authenticate on the
updated record succeeds with the new password and fails with the old. -/
theorem c7_change_password_atomic (st : Settings)
    (checkpw : String → String → Except PyExc Bool)
    (hashpw : String → Nat → String)
    (user : UserRec) (current new : String) (now : Int) :
    (checkpw current user.hashedPassword = .ok false →
       change_user_password st checkpw hashpw user current new =
         .error (.invalidCredentials (some "Invalid current password")) ∧
       user_after_change st checkpw hashpw user current new = user) ∧
    (checkpw current user.hashedPassword = .ok true →
     st.PASSWORD_MIN_LENGTH ≤ new.length →
     utf8Len new ≤ 72 →
     user.isActive = true →
     checkpw new (hashpw new st.BCRYPT_ROUNDS) = .ok true →
     checkpw current (hashpw new st.BCRYPT_ROUNDS) = .ok false →
       change_user_password st checkpw hashpw user current new =
         .ok { user with hashedPassword := hashpw new st.BCRYPT_ROUNDS } ∧
       authenticate_user checkpw [{ user with hashedPassword := hashpw new st.BCRYPT_ROUNDS }]
           now user.email new =
         .ok (some { user with
                     hashedPassword := hashpw new st.BCRYPT_ROUNDS
                     lastLogin := some now }) ∧
       authenticate_user checkpw [{ user with hashedPassword := hashpw new st.BCRYPT_ROUNDS }]
           now user.email current = .ok none) := by
  constructor
  · intro hwrong
    have hch : change_user_password st checkpw hashpw user current new =
        .error (.invalidCredentials (some "Invalid current password")) := by
      simp [change_user_password, verify_password, hwrong]
    exact ⟨hch, by simp [user_after_change, hch]⟩
  · intro hok hlen hbytes hact hnew hold
    have hch : change_user_password st checkpw hashpw user current new =
        .ok { user with hashedPassword := hashpw new st.BCRYPT_ROUNDS } := by
      simp [change_user_password, verify_password, hok, get_password_hash,
        Nat.not_lt.mpr hlen, Nat.not_lt.mpr hbytes]
    refine ⟨hch, ?_, ?_⟩
    · simp [authenticate_user, get_by_email, List.find?, hact, verify_password, hnew]
    · simp [authenticate_user, get_by_email, List.find?, hact, verify_password, hold]

/-- C7 witness: the success branch at concrete inputs with the toy bcrypt
primitive. -/
theorem c7_change_password_atomic_witness :
    change_user_password demoSettings toyCheckpw toyHashpw demoUser
        "OldPass123!" "NewPass123!" =
      .ok { demoUser with hashedPassword := toyHashpw "NewPass123!" 12 } ∧
    authenticate_user toyCheckpw [{ demoUser with hashedPassword := toyHashpw "NewPass123!" 12 }]
        1000 "a@x.com" "NewPass123!" =
      .ok (some { demoUser with
                  hashedPassword := toyHashpw "NewPass123!" 12
                  lastLogin := some 1000 }) ∧
    authenticate_user toyCheckpw [{ demoUser with hashedPassword := toyHashpw "NewPass123!" 12 }]
        1000 "a@x.com" "OldPass123!" = .ok none :=
  (c7_change_password_atomic demoSettings toyCheckpw toyHashpw demoUser
      "OldPass123!" "NewPass123!" 1000).2
    (by decide) (by decide) (by decide) (by decide) (by decide) (by decide)

/-- C8: the guard on a well-signed, unexpired, unrevoked access token
whose subject parses: when the subject resolves to no user the guard
fails 401 ("User not found", the InvalidTokenError shape); when it
resolves to an existing but inactive user the guard fails 403 ("User is
inactive", the InactiveUserError shape), not a 401. -/
theorem c8_guard_inactive_user_403 (st : Settings) (db : List UserRec)
    (cache : Cache) (now : Int) (p : TokenPayload) (user_id : Int)
    (htype : p.type = .access)
    (hexp : ¬ p.exp < now)
    (hrev : ¬ (jtiTruthy p.jti ∧ is_token_blacklisted st cache now (jtiVal p.jti)))
    (hsub : pyInt p.sub = some user_id) :
    (get_by_id db user_id = none →
       get_current_user st db cache now (some (.signed st.JWT_SECRET_KEY p)) =
         .error ⟨401, "User not found"⟩) ∧
    (∀ u, get_by_id db user_id = some u → u.isActive = false →
       get_current_user st db cache now (some (.signed st.JWT_SECRET_KEY p)) =
         .error ⟨403, "User is inactive"⟩) := by
  constructor
  · intro hmiss
    simp [get_current_user, decode_and_assert, decode_token, jose_decode,
      assert_token_type, TokenPayload.validated, Except.map, Except.bind,
      htype, hexp, hsub, hmiss, hrev]
  · intro u hu hin
    simp [get_current_user, decode_and_assert, decode_token, jose_decode,
      assert_token_type, TokenPayload.validated, Except.map, Except.bind,
      htype, hexp, hsub, hu, hin, hrev]

/-- C8 witness: an unexpired, unrevoked access token for user 1, who
exists but is deactivated, is rejected 403; the same token against an
empty store is rejected 401. -/
theorem c8_guard_inactive_user_403_witness :
    (get_by_id [] 1 = none →
       get_current_user demoSettings [] [] 1000
           (some (.signed "secret" { sub := "1", type := .access, exp := 2000, iat := 0 })) =
         .error ⟨401, "User not found"⟩) ∧
    (∀ u, get_by_id [] 1 = some u → u.isActive = false →
       get_current_user demoSettings [] [] 1000
           (some (.signed "secret" { sub := "1", type := .access, exp := 2000, iat := 0 })) =
         .error ⟨403, "User is inactive"⟩) :=
  c8_guard_inactive_user_403 demoSettings [] [] 1000
    { sub := "1", type := .access, exp := 2000, iat := 0 } 1
    rfl (by decide) (by decide) (by decide)

/-- C9: verify_password is total.  Under the bcrypt API contract — the
primitive either returns a boolean or raises a ValueError/TypeError (a
malformed or truncated hash raises ValueError; so does a bad input
encoding, UnicodeEncodeError being a ValueError) — every call returns a
boolean, and whenever the primitive raises (any malformed-hash input) the
result is False. -/
theorem c9_verify_password_total (checkpw : String → String → Except PyExc Bool)
    (hbcrypt : ∀ p h e, checkpw p h = .error e → pyCaught e = true)
    (p h : String) :
    (∃ b, verify_password checkpw p h = .ok b) ∧
    (∀ e, checkpw p h = .error e → verify_password checkpw p h = .ok false) := by
  constructor
  · match hc : checkpw p h with
    | .ok b => exact ⟨b, by simp [verify_password, hc]⟩
    | .error e => exact ⟨false, by simp [verify_password, hc, hbcrypt p h e hc]⟩
  · intro e hc
    simp [verify_password, hc, hbcrypt p h e hc]

/-- C9 witness: a primitive that always raises ValueError (as bcrypt does
on a hash that is not a bcrypt digest): verify returns false, raising
nothing. -/
theorem c9_verify_password_total_witness :
    (∃ b, verify_password (fun _ _ => .error .valueError) "pw" "not-a-bcrypt-hash" = .ok b) ∧
    (∀ e, (fun _ _ => (.error .valueError : Except PyExc Bool)) "pw" "not-a-bcrypt-hash" = .error e →
       verify_password (fun _ _ => .error .valueError) "pw" "not-a-bcrypt-hash" = .ok false) :=
  c9_verify_password_total (fun _ _ => .error .valueError)
    (fun _ _ e he => by cases he; rfl) "pw" "not-a-bcrypt-hash"

/-- C10: role get_or_create is race-safe and duplicate-free.  Every role
it returns carries exactly the requested name; when the pre-check missed
and the nested flush reports a uniqueness conflict, it returns the role
the concurrent request created (so no second role comes into being),
and raises ServiceUnavailableError only when the role is still absent
after the conflict. -/
theorem c10_get_or_create_race_safe (db dbAfter : List RoleRec)
    (flushSig : FlushSignal) (name : String) (desc : Option String) :
    (∀ r, get_or_create db dbAfter flushSig name desc = .ok r → r.name = name) ∧
    (get_by_name db name = none →
       (∀ r, get_by_name dbAfter name = some r →
          get_or_create db dbAfter .integrityError name desc = .ok r) ∧
       (get_by_name dbAfter name = none →
          get_or_create db dbAfter .integrityError name desc =
            .error (.serviceUnavailable "Role creation failed"))) := by
  constructor
  · intro r hr
    unfold get_or_create at hr
    match hpre : get_by_name db name with
    | some existing =>
      rw [hpre] at hr
      cases hr
      exact get_by_name_name db name r hpre
    | none =>
      rw [hpre] at hr
      match flushSig with
      | .ok => cases hr; rfl
      | .integrityError =>
        match hafter : get_by_name dbAfter name with
        | some existing =>
          rw [hafter] at hr
          cases hr
          exact get_by_name_name dbAfter name r hafter
        | none => rw [hafter] at hr; cases hr
      | .otherSqlError => cases hr
  · intro hpre
    constructor
    · intro r hafter
      simp [get_or_create, hpre, hafter]
    · intro hafter
      simp [get_or_create, hpre, hafter]

/-- C10 witness: concrete conflict — the pre-check misses, the flush
reports the uniqueness violation, and the role the concurrent request
inserted is returned. -/
theorem c10_get_or_create_race_safe_witness :
    (∀ r, get_or_create [] [⟨"user", none⟩] .integrityError "user"
        (some DEFAULT_ROLE_DESCRIPTION) = .ok r → r.name = "user") ∧
    (get_by_name [] "user" = none →
       (∀ r, get_by_name [⟨"user", none⟩] "user" = some r →
          get_or_create [] [⟨"user", none⟩] .integrityError "user"
            (some DEFAULT_ROLE_DESCRIPTION) = .ok r) ∧
       (get_by_name [⟨"user", none⟩] "user" = none →
          get_or_create [] [⟨"user", none⟩] .integrityError "user"
            (some DEFAULT_ROLE_DESCRIPTION) =
            .error (.serviceUnavailable "Role creation failed"))) :=
  c10_get_or_create_race_safe [] [⟨"user", none⟩] .integrityError "user"
    (some DEFAULT_ROLE_DESCRIPTION)

end FastapiBlueprint
